import Mathlib

/-!
Shallow embedding of the PenHive single-host VM orchestrator core, translated
from the C++ sources:

* `src/Virtualization/vm/VirtualMachinePool` implementation (pool allocation,
  display-port scan),
* `VirtualMachineManager::dispatch_deploy` and
  `VirtualMachineManager::schedule_health_check`,
* `CONCURRENCY::Timer` / `EventDispatcher::dispatch_delayed`,
* the `AutoScalingEngine`, `RealTimeMonitor` and `VirtualMachine` classes of
  `doc/deepseek.cpp`,
* the NIC MAC generators and `VmConfig` XML round-trip.

External effects (libvirt calls, TCP port probing, random byte draws, wall
clock readings) are passed in as explicit parameters, so every definition is
executable and the theorems quantify over those environments.
-/

namespace PenHive

/-! ## VirtualMachinePool (src/unnamed/part_001)

`findAvailablePort` scans `[startPort, endPort]` and returns the first port
whose socket open+bind succeeds; the OS state is abstracted as the predicate
`free`.  Throwing (`invalid_argument` for a bad range, `runtime_error` when no
port is free) is modelled as `none`; `allocate` catches every exception and
stores `-1`, exactly as the C++ `try { ... } catch (...) { reservedPort = -1; }`
does. -/

structure PoolEntry where
  uuid : String
  reservedPort : Int
deriving Repr, DecidableEq

structure VirtualMachinePool where
  nextId : Int
  entries : List (Int × PoolEntry)
deriving Repr, DecidableEq

def findAvailablePortAux (free : Int → Bool) : Nat → Int → Option Int
  | 0, _ => none
  | n + 1, port => if free port then some port else findAvailablePortAux free n (port + 1)

def findAvailablePort (free : Int → Bool) (startPort endPort : Int) : Option Int :=
  if startPort < 1 ∨ 65535 < endPort ∨ endPort < startPort then none
  else findAvailablePortAux free (endPort + 1 - startPort).toNat startPort

/-- One `allocate()` call.  The random v4 UUID is supplied by the caller as
`uuid`; the id is the monotone `nextId`.  The source never fails: a port-scan
exception is swallowed and recorded as `reservedPort = -1`. -/
def VirtualMachinePool.allocate (pool : VirtualMachinePool) (uuid : String)
    (free : Int → Bool) : Except String Int × VirtualMachinePool :=
  let id := pool.nextId
  let reservedPort : Int :=
    match findAvailablePort free 5900 6000 with
    | some p => p
    | none => -1
  (Except.ok id,
   { nextId := id + 1, entries := pool.entries ++ [(id, ⟨uuid, reservedPort⟩)] })

def VirtualMachinePool.getMeta (pool : VirtualMachinePool) (id : Int) :
    Option (String × Int) :=
  match pool.entries.find? (fun e => e.1 == id) with
  | some (_, e) => some (e.uuid, e.reservedPort)
  | none => none

def VirtualMachinePool.remove (pool : VirtualMachinePool) (id : Int) :
    Bool × VirtualMachinePool :=
  if pool.entries.any (fun e => e.1 == id) then
    (true, { pool with entries := pool.entries.filter (fun e => e.1 != id) })
  else (false, pool)

/-- The pool as constructed: `int nextId{1}` and no entries. -/
def emptyPool : VirtualMachinePool := ⟨1, []⟩

/-! ## VirtualMachineManager::dispatch_deploy
(src/src/Virtualization/vmm/VirtualMachineManager.cpp, lines 37-81)

The libvirt outcomes are abstracted as booleans: whether the connector,
XML build, `defineDomain` and `startDomain` succeed.  `DomainState` tracks
the libvirt-side domain for the deployed name. -/

inductive DomainState where
  | absent
  | running
deriving Repr, DecidableEq

structure DeployEnv where
  connectOk : Bool
  xmlOk : Bool
  defineOk : Bool
  startOk : Bool
deriving Repr, DecidableEq

/-- `dispatch_deploy`: connect, build XML, define, allocate, start.  On an
allocation failure the defined domain is undefined; on a start failure the
domain is undefined and freed, and the function returns the error — the pool
state `pool₁` (holding the entry just allocated) is returned as is, because
the source has no `vmpool->remove` on that path. -/
def dispatch_deploy (env : DeployEnv) (pool : VirtualMachinePool) (uuid : String)
    (free : Int → Bool) : Except String Int × VirtualMachinePool × DomainState :=
  if env.connectOk = false then
    (Except.error "Connector error", pool, DomainState.absent)
  else if env.xmlOk = false then
    (Except.error "buildDomainXML failed", pool, DomainState.absent)
  else if env.defineOk = false then
    (Except.error "defineDomain failed", pool, DomainState.absent)
  else
    match pool.allocate uuid free with
    | (Except.error e, pool₁) =>
        -- cleanup defined domain (virDomainUndefine + virDomainFree)
        (Except.error e, pool₁, DomainState.absent)
    | (Except.ok id, pool₁) =>
        if env.startOk = false then
          -- attempt cleanup: virDomainUndefine(domain); virDomainFree(domain)
          (Except.error "Failed to start domain", pool₁, DomainState.absent)
        else
          (Except.ok id, pool₁, DomainState.running)

/-! ### Claims C1 and C3 -/

/-- C1: `dispatch_deploy` with the domain defined and `startDomain` failing
returns an error and undefines the domain, but the pool still holds the entry
(id 1, reserved port 5900) allocated for the failed deploy — the reserved
pool entry and its port are NOT released, contradicting the specified
rollback. -/
theorem dispatch_deploy_start_failure_keeps_pool_entry :
    dispatch_deploy ⟨true, true, true, false⟩ emptyPool "uuid-a" (fun _ => true) =
      (Except.error "Failed to start domain",
       ⟨2, [(1, ⟨"uuid-a", 5900⟩)]⟩,
       DomainState.absent) := by
  rfl

/-- C3 counterexample: with no free port in 5900..6000, `allocate()` still
returns a fresh id (`Except.ok 1`, recording reserved port `-1`) instead of
failing with `ResourceExhausted`; moreover with an unchanged set of free
ports two consecutive `allocate()` calls record the SAME reserved port 5900,
so the returned ports are not distinct. -/
theorem allocate_no_free_port_still_succeeds :
    (emptyPool.allocate "uuid-a" (fun _ => false)).1 = Except.ok 1 ∧
    (emptyPool.allocate "uuid-a" (fun _ => false)).2.entries =
      [(1, ⟨"uuid-a", -1⟩)] ∧
    ((emptyPool.allocate "uuid-b" (fun _ => true)).2.allocate "uuid-c"
        (fun _ => true)).2.entries =
      [(1, ⟨"uuid-b", 5900⟩), (2, ⟨"uuid-c", 5900⟩)] := by
  exact ⟨rfl, rfl, rfl⟩

theorem findAvailablePortAux_none (free : Int → Bool) (h : ∀ p, free p = false) :
    ∀ (n : Nat) (start : Int), findAvailablePortAux free n start = none := by
  intro n
  induction n with
  | zero => intro start; rfl
  | succ k ih =>
      intro start
      simp [findAvailablePortAux, h start, ih]

/-- C3 (amended): `allocate()` never fails for lack of a port: it always
succeeds with the next monotone id (so two consecutive calls return distinct
ids), appending an entry whose reserved port is the same value `q` for both
calls when the set of OS-free ports is unchanged (the scan closes its probe
socket and does not hold the port); when no port in range is free, `q = -1`
is recorded instead of an error being raised. -/
theorem allocate_never_exhausted_ids_fresh_port_shared
    (pool : VirtualMachinePool) (u₁ u₂ : String) (free : Int → Bool) :
    (pool.allocate u₁ free).1 = Except.ok pool.nextId ∧
    ((pool.allocate u₁ free).2.allocate u₂ free).1 = Except.ok (pool.nextId + 1) ∧
    pool.nextId + 1 ≠ pool.nextId ∧
    (∃ q : Int,
      ((pool.allocate u₁ free).2.allocate u₂ free).2.entries =
        pool.entries ++ [(pool.nextId, ⟨u₁, q⟩), (pool.nextId + 1, ⟨u₂, q⟩)] ∧
      ((∀ p, free p = false) → q = -1)) := by
  refine ⟨rfl, rfl, by omega, ?_⟩
  refine ⟨match findAvailablePort free 5900 6000 with
          | some p => p
          | none => -1, ?_, ?_⟩
  · simp [VirtualMachinePool.allocate]
  · intro h
    simp [findAvailablePort, findAvailablePortAux_none free h]

/-- C3 witness: the amended allocate behaviour at the empty pool with no free
port. -/
theorem allocate_never_exhausted_witness :
    (emptyPool.allocate "a" (fun _ => false)).1 = Except.ok emptyPool.nextId ∧
    ((emptyPool.allocate "a" (fun _ => false)).2.allocate "b" (fun _ => false)).1 =
      Except.ok (emptyPool.nextId + 1) ∧
    emptyPool.nextId + 1 ≠ emptyPool.nextId ∧
    (∃ q : Int,
      ((emptyPool.allocate "a" (fun _ => false)).2.allocate "b"
          (fun _ => false)).2.entries =
        emptyPool.entries ++ [(emptyPool.nextId, ⟨"a", q⟩),
                              (emptyPool.nextId + 1, ⟨"b", q⟩)] ∧
      ((∀ p : Int, (fun _ : Int => false) p = false) → q = -1)) :=
  allocate_never_exhausted_ids_fresh_port_shared emptyPool "a" "b" (fun _ => false)

/-! ## Timer and EventDispatcher (src/src/Core/concurrency/EventDispatcher.cpp)

`Timer::Impl` arms an asio `steady_timer` whose completion handler runs the
callback only when the error code is clear and the `cancelled` flag is unset.
`Timer::cancel` sets the flag (and cancels the asio wait); `Timer::~Timer`
calls `cancel`.  `EventDispatcher::dispatch_delayed` constructs such a timer
and returns the shared handle. -/

structure Timer where
  cancelled : Bool
deriving Repr, DecidableEq

/-- A freshly armed timer, as built by `dispatch_delayed`. -/
def Timer.new : Timer := ⟨false⟩

def Timer.cancel (t : Timer) : Timer := { t with cancelled := true }

/-- The destructor `Timer::~Timer` runs `cancel()`. -/
def Timer.destroy (t : Timer) : Timer := t.cancel

/-- Whether the armed completion handler runs the stored callback when it is
invoked with error code `ec`: `if (ec || self->cancelled.load()) return;`. -/
def Timer.fireRuns (t : Timer) (ec : Bool) : Bool := !(ec || t.cancelled)

/-! ### Claim C10 -/

/-- C10: destroying a Timer handle before its delay elapses cancels it, and a
timer whose cancelled flag is set when its completion handler is invoked never
runs its callback; in particular a `dispatch_delayed` handle that is dropped
immediately (as the health-check rescheduler drops it) never runs its task. -/
theorem timer_destroy_cancels_and_callback_never_runs (t : Timer) (ec : Bool) :
    (Timer.destroy t).cancelled = true ∧
    Timer.fireRuns (Timer.destroy t) ec = false ∧
    Timer.fireRuns (Timer.destroy Timer.new) ec = false := by
  refine ⟨rfl, ?_, ?_⟩ <;> simp [Timer.fireRuns, Timer.destroy, Timer.cancel]

/-! ## VirtualMachineManager::schedule_health_check
(src/src/Virtualization/vmm/VirtualMachineManager.cpp, lines 101-134)

The recursive health-check task: on each run it returns at once when the
cancel flag is set; otherwise it queries the VM state (one "tick") and, if the
flag is still unset, schedules the next run with
`dispatcher->dispatch_delayed(interval, ...)`.  The `std::shared_ptr<Timer>`
returned by `dispatch_delayed` is discarded by the task, so the handle's
destructor runs immediately — which is `Timer.destroy`.  `HCState.pending`
holds the outstanding delayed timer, `ticks` counts executed health checks. -/

structure HCState where
  ticks : Nat
  pending : Option Timer
deriving Repr, DecidableEq

/-- One execution of the recursive health-check task with the cancel flag
reading `flag`. -/
def hcTaskRun (flag : Bool) (s : HCState) : HCState :=
  if flag then s
  else
    let s₁ : HCState := { s with ticks := s.ticks + 1 }
    if flag then s₁
    else
      -- dispatch_delayed(interval, task); the returned handle is discarded,
      -- so its destructor cancels the timer it just created
      { s₁ with pending := some (Timer.destroy Timer.new) }

/-- The event loop reaching the pending delayed timer: its completion handler
is invoked (with a clear error code, the best case for the claim); the
callback — the next health-check run — executes only if `fireRuns`. -/
def hcFirePending (flag : Bool) (s : HCState) : HCState :=
  match s.pending with
  | none => s
  | some t =>
      if Timer.fireRuns t false then hcTaskRun flag { s with pending := none }
      else { s with pending := none }

/-- `schedule_health_check` posts the first task run, after which the
dispatcher performs `n` further rounds of delayed-timer delivery. -/
def hcRun (flag : Bool) : Nat → HCState
  | 0 => hcTaskRun flag { ticks := 0, pending := none }
  | n + 1 => hcFirePending flag (hcRun flag n)

/-! ### Claim C6 -/

/-- Across every reachable dispatcher round the health check has performed
exactly one tick, and any outstanding delayed timer is the cancelled one left
by the discarded `dispatch_delayed` handle. -/
theorem hcRun_one_tick_pending_cancelled (n : Nat) :
    (hcRun false n).ticks = 1 ∧
    ((hcRun false n).pending = none ∨
     (hcRun false n).pending = some (Timer.destroy Timer.new)) := by
  induction n with
  | zero => simp [hcRun, hcTaskRun]
  | succ k ih =>
      rcases ih with ⟨ht, hp | hp⟩
      · simp [hcRun, hcFirePending, hp, ht]
      · simp [hcRun, hcFirePending, hp, Timer.fireRuns, Timer.destroy, Timer.cancel,
              Timer.new, ht]

/-- C6: with the cancel flag never set, the scheduled health check performs
exactly ONE state-querying tick no matter how many delayed-timer delivery
rounds the dispatcher executes: the reschedule discards the
`dispatch_delayed` handle, whose destructor cancels the timer, so no periodic
tick ever fires again — the check does not run once per interval as
specified. -/
theorem health_check_runs_exactly_one_tick (n : Nat) :
    (hcRun false n).ticks = 1 :=
  (hcRun_one_tick_pending_cancelled n).1

/-! ## AutoScalingEngine rate limiting (src/doc/deepseek.cpp, lines 2745-2768
and 2900-2925)

`check_rate_limit` consults `last_scale_time` (previous decision instant) and
`scale_count_24h` (per-VM decision counter, incremented on every accepted
check and never decremented — `cleanup_old_decisions` erases only counters
that are already zero).  `analyze_metrics` collapses a rejected decision to
`Maintain` and pushes only non-`Maintain` decisions onto the queue.
Timestamps are wall-clock seconds as `Int`; the state and queue are per-VM
(the C++ maps are keyed by `vm_name`). -/

inductive ScalingAction where
  | ScaleUp
  | ScaleDown
  | Maintain
  | Migrate
  | Suspend
  | Resume
deriving Repr, DecidableEq

structure RateLimitState where
  last_scale_time : Option Int
  scale_count_24h : Nat
deriving Repr, DecidableEq

/-- The first guard of `check_rate_limit`: the previous decision for this VM
was less than 2 minutes (120 s) ago. -/
def tooSoon (now : Int) (st : RateLimitState) : Bool :=
  match st.last_scale_time with
  | some t => now - t < 120
  | none => false

/-- `AutoScalingEngine::check_rate_limit` for one VM at instant `now`:
reject when the previous decision was less than 2 minutes ago or at least 50
decisions have been counted; otherwise record `now` and increment the
counter. -/
def check_rate_limit (now : Int) (st : RateLimitState) : Bool × RateLimitState :=
  if tooSoon now st then (false, st)
  else if 50 ≤ st.scale_count_24h then (false, st)
  else (true, { last_scale_time := some now, scale_count_24h := st.scale_count_24h + 1 })

/-- The tail of `AutoScalingEngine::analyze_metrics`: the analyzed action `a`
with timestamp `t` passes through `check_rate_limit`; on rejection it is
collapsed to `Maintain`, and only a non-`Maintain` decision is pushed onto
the decision queue. -/
def engineStep (st : RateLimitState) (queue : List (Int × ScalingAction))
    (t : Int) (a : ScalingAction) :
    RateLimitState × List (Int × ScalingAction) :=
  let r := check_rate_limit t st
  let a₁ := if r.1 then a else ScalingAction.Maintain
  if a₁ = ScalingAction.Maintain then (r.2, queue) else (r.2, queue ++ [(t, a₁)])

def engineRunFrom (st : RateLimitState) (queue : List (Int × ScalingAction)) :
    List (Int × ScalingAction) → RateLimitState × List (Int × ScalingAction)
  | [] => (st, queue)
  | e :: evs => engineRunFrom (engineStep st queue e.1 e.2).1 (engineStep st queue e.1 e.2).2 evs

/-- A fresh engine (no previous decision, zero counter) consuming a list of
analyzed metric events `(timestamp, proposed action)` for one VM. -/
def engineRun (events : List (Int × ScalingAction)) :
    RateLimitState × List (Int × ScalingAction) :=
  engineRunFrom ⟨none, 0⟩ [] events

/-- Forwarded decisions are at least 120 seconds apart. -/
def gapGE (a b : Int × ScalingAction) : Prop := a.1 + 120 ≤ b.1

instance : IsTrans (Int × ScalingAction) gapGE :=
  ⟨fun a b c hab hbc => by simp only [gapGE] at *; omega⟩

instance : DecidableRel gapGE := fun a b => by
  simp only [gapGE]; infer_instance

theorem mem_of_getLast?_eq {α : Type} {l : List α} {a : α}
    (h : l.getLast? = some a) : a ∈ l := by
  induction l with
  | nil => simp at h
  | cons x xs ih =>
      cases xs with
      | nil =>
          have hxa : x = a := by simpa [List.getLast?] using h
          simp [hxa]
      | cons y ys =>
          rw [List.getLast?_cons_cons] at h
          exact List.mem_cons_of_mem x (ih h)

/-- Invariant of the per-VM rate-limit state and decision queue: queued
decisions are non-Maintain, consecutive gaps are at least 120 s, the queue is
no longer than the counter, the counter never exceeds 50, and every queued
timestamp is bounded by the recorded last-decision instant. -/
def EngineInv (st : RateLimitState) (q : List (Int × ScalingAction)) : Prop :=
  (∀ e ∈ q, e.2 ≠ ScalingAction.Maintain) ∧
  List.Chain' gapGE q ∧
  q.length ≤ st.scale_count_24h ∧
  st.scale_count_24h ≤ 50 ∧
  (∀ e ∈ q, ∃ tl, st.last_scale_time = some tl ∧ e.1 ≤ tl)

theorem engineStep_inv (st : RateLimitState) (q : List (Int × ScalingAction))
    (t : Int) (a : ScalingAction) (h : EngineInv st q) :
    EngineInv (engineStep st q t a).1 (engineStep st q t a).2 := by
  obtain ⟨hnm, hchain, hlen, hcnt, hlast⟩ := h
  by_cases hrej : tooSoon t st = true
  · have hstep : engineStep st q t a = (st, q) := by
      simp [engineStep, check_rate_limit, hrej]
    rw [hstep]
    exact ⟨hnm, hchain, hlen, hcnt, hlast⟩
  · by_cases hfifty : 50 ≤ st.scale_count_24h
    · have hstep : engineStep st q t a = (st, q) := by
        simp [engineStep, check_rate_limit, hrej, hfifty]
      rw [hstep]
      exact ⟨hnm, hchain, hlen, hcnt, hlast⟩
    · have hgap : ∀ tl, st.last_scale_time = some tl → tl + 120 ≤ t := by
        intro tl htl
        have hts : tooSoon t st = false := by
          exact Bool.eq_false_iff.mpr hrej
        rw [tooSoon, htl] at hts
        simp at hts
        omega
      have hbound : ∀ e ∈ q, e.1 + 120 ≤ t := by
        intro e he
        obtain ⟨tl, htl, hetl⟩ := hlast e he
        have := hgap tl htl
        omega
      by_cases ha : a = ScalingAction.Maintain
      · have hstep : engineStep st q t a =
            (⟨some t, st.scale_count_24h + 1⟩, q) := by
          simp [engineStep, check_rate_limit, hrej, hfifty, ha]
        rw [hstep]
        dsimp only
        refine ⟨hnm, hchain, Nat.le_succ_of_le hlen,
          by show st.scale_count_24h + 1 ≤ 50; omega, ?_⟩
        intro e he
        have := hbound e he
        exact ⟨t, rfl, by omega⟩
      · have hstep : engineStep st q t a =
            (⟨some t, st.scale_count_24h + 1⟩, q ++ [(t, a)]) := by
          simp [engineStep, check_rate_limit, hrej, hfifty, ha]
        rw [hstep]
        dsimp only
        refine ⟨?_, ?_, ?_, by show st.scale_count_24h + 1 ≤ 50; omega, ?_⟩
        · intro e he
          rcases List.mem_append.mp he with h₁ | h₂
          · exact hnm e h₁
          · rw [List.mem_singleton.mp h₂]
            exact ha
        · rw [List.chain'_append]
          refine ⟨hchain, List.chain'_singleton _, ?_⟩
          intro x hx y hy
          simp only [List.head?_cons, Option.mem_def, Option.some.injEq] at hy
          have hxq : x ∈ q := mem_of_getLast?_eq hx
          rw [← hy]
          exact hbound x hxq
        · simp only [List.length_append, List.length_cons, List.length_nil]
          omega
        · intro e he
          rcases List.mem_append.mp he with h₁ | h₂
          · have := hbound e h₁
            exact ⟨t, rfl, by omega⟩
          · rw [List.mem_singleton.mp h₂]
            exact ⟨t, rfl, le_refl t⟩

theorem engineRunFrom_inv (events : List (Int × ScalingAction)) :
    ∀ (st : RateLimitState) (q : List (Int × ScalingAction)), EngineInv st q →
      EngineInv (engineRunFrom st q events).1 (engineRunFrom st q events).2 := by
  induction events with
  | nil => intro st q h; exact h
  | cons e evs ih =>
      intro st q h
      exact ih _ _ (engineStep_inv st q e.1 e.2 h)

/-! ### Claim C2 -/

/-- C2: for any sequence of analyzed metric events for one VM, the engine
forwards only non-`Maintain` decisions (a rejected decision is collapsed to
`Maintain` and not queued), any two forwarded decisions are at least
2 minutes (120 s) apart, and at most 50 decisions are ever forwarded —
hence at most 50 in any 24-hour window (the counter is never decremented,
so the cap is in fact global). -/
theorem engine_rate_limit_bounds (events : List (Int × ScalingAction)) :
    (∀ e ∈ (engineRun events).2, e.2 ≠ ScalingAction.Maintain) ∧
    List.Pairwise gapGE (engineRun events).2 ∧
    (engineRun events).2.length ≤ 50 := by
  have h := engineRunFrom_inv events ⟨none, 0⟩ []
    ⟨by simp, List.chain'_nil, by simp, by norm_num, by simp⟩
  obtain ⟨hnm, hchain, hlen, hcnt, _⟩ := h
  exact ⟨hnm, List.chain'_iff_pairwise.mp hchain, le_trans hlen hcnt⟩

/-- C2 witness: a concrete trace — proposals at seconds 0, 60, 120 and 125.
The engine forwards the decisions at 0 and 120 only; both are non-Maintain,
120 s apart, and the count stays below 50. -/
theorem engine_rate_limit_bounds_witness :
    (∀ e ∈ (engineRun [(0, ScalingAction.ScaleUp), (60, ScalingAction.ScaleUp),
        (120, ScalingAction.ScaleDown), (125, ScalingAction.ScaleUp)]).2,
      e.2 ≠ ScalingAction.Maintain) ∧
    List.Pairwise gapGE (engineRun [(0, ScalingAction.ScaleUp),
        (60, ScalingAction.ScaleUp), (120, ScalingAction.ScaleDown),
        (125, ScalingAction.ScaleUp)]).2 ∧
    (engineRun [(0, ScalingAction.ScaleUp), (60, ScalingAction.ScaleUp),
        (120, ScalingAction.ScaleDown), (125, ScalingAction.ScaleUp)]).2.length ≤ 50 :=
  engine_rate_limit_bounds [(0, ScalingAction.ScaleUp), (60, ScalingAction.ScaleUp),
    (120, ScalingAction.ScaleDown), (125, ScalingAction.ScaleUp)]

/-! ## VirtualMachine::scaleCPU / scaleMemory (src/doc/deepseek.cpp,
lines 1644-1725)

Both operations check the status, range-check the request against the limit
table, then write the new value into `config` BEFORE invoking the libvirt
primitive (`virDomainSetVcpus` / `virDomainSetMemory`, whose outcome is the
parameter `driverOk`), and update `current_value` of the first matching limit
only after the primitive succeeds.  The third resource alternative is spelled
`Io` here because of Lean naming constraints; the source spells it in capital
letters. -/

inductive VMStatus where
  | Stopped
  | Running
  | Paused
  | Error
  | Creating
  | Migrating
  | Suspended
deriving Repr, DecidableEq

inductive ResourceType where
  | CPU
  | Memory
  | Io
  | Network
deriving Repr, DecidableEq

structure ResourceLimit where
  type : ResourceType
  min_value : Nat
  max_value : Nat
  current_value : Nat
  unit : String
deriving Repr, DecidableEq

structure VMConfig where
  name : String
  limits : List ResourceLimit
  image_path : String
  vcpus : Nat
  memory_mb : Nat
deriving Repr, DecidableEq

structure VirtualMachine where
  name : String
  uuid : String
  status : VMStatus
  config : VMConfig
  resource_limits : List ResourceLimit
deriving Repr, DecidableEq

/-- Update `current_value` of the first limit of the given type (the source
loop breaks after the first match). -/
def setFirstCurrent : List ResourceLimit → ResourceType → Nat → List ResourceLimit
  | [], _, _ => []
  | l :: ls, rt, v =>
      if l.type = rt then { l with current_value := v } :: ls
      else l :: setFirstCurrent ls rt v

/-- `VirtualMachine::scaleCPU(uint16_t vcpus)`; `driverOk` is the outcome of
`virDomainSetVcpus`.  Note `config.vcpus` is assigned before the libvirt
call. -/
def scaleCPU (vm : VirtualMachine) (vcpus : Nat) (driverOk : Bool) :
    Bool × VirtualMachine :=
  if ¬(vm.status = VMStatus.Running ∨ vm.status = VMStatus.Paused) then (false, vm)
  else if ∃ l ∈ vm.resource_limits, l.type = ResourceType.CPU ∧
            (vcpus < l.min_value ∨ l.max_value < vcpus) then (false, vm)
  else
    let vm₁ : VirtualMachine := { vm with config := { vm.config with vcpus := vcpus } }
    if driverOk = false then (false, vm₁)
    else (true, { vm₁ with
      resource_limits := setFirstCurrent vm₁.resource_limits ResourceType.CPU vcpus })

/-- Reduction modulo 2^64, the wrap-around of C++ `uint64_t` arithmetic. -/
def u64Mod (x : Nat) : Nat := x % 2 ^ 64

/-- `VirtualMachine::scaleMemory(uint64_t memory_mb)`; the range check uses
`memory_mb * 1024 * 1024` computed in 64-bit arithmetic, and `config.memory_mb`
is likewise assigned before the libvirt call. -/
def scaleMemory (vm : VirtualMachine) (memory_mb : Nat) (driverOk : Bool) :
    Bool × VirtualMachine :=
  if ¬(vm.status = VMStatus.Running ∨ vm.status = VMStatus.Paused) then (false, vm)
  else
    if ∃ l ∈ vm.resource_limits, l.type = ResourceType.Memory ∧
         (u64Mod (memory_mb * 1024 * 1024) < l.min_value ∨
          l.max_value < u64Mod (memory_mb * 1024 * 1024)) then (false, vm)
    else
      let vm₁ : VirtualMachine :=
        { vm with config := { vm.config with memory_mb := memory_mb } }
      if driverOk = false then (false, vm₁)
      else (true, { vm₁ with
        resource_limits := setFirstCurrent vm₁.resource_limits ResourceType.Memory
          (u64Mod (memory_mb * 1024 * 1024)) })

/-- A running VM with two vCPUs and a CPU limit `[1, 8]`, current 2. -/
def vmDemo : VirtualMachine :=
  { name := "vm-a", uuid := "u-a", status := VMStatus.Running,
    config := { name := "vm-a", limits := [⟨ResourceType.CPU, 1, 8, 2, "cores"⟩],
                image_path := "/img/a.qcow2", vcpus := 2, memory_mb := 2048 },
    resource_limits := [⟨ResourceType.CPU, 1, 8, 2, "cores"⟩] }

/-! ### Claim C4 -/

/-- C4 counterexample: on `vmDemo` (Running, CPU limit `[1,8]`), scaling to 4
vCPUs with the libvirt primitive failing returns `false` but leaves
`config.vcpus = 4` — the in-memory configuration was mutated before the
primitive was called, so failed operations do NOT leave the in-memory state
unchanged (only the limit table is unchanged). -/
theorem scaleCPU_driver_failure_mutates_config :
    (scaleCPU vmDemo 4 false).1 = false ∧
    (scaleCPU vmDemo 4 false).2.config.vcpus = 4 ∧
    vmDemo.config.vcpus = 2 ∧
    (scaleCPU vmDemo 4 false).2.resource_limits = vmDemo.resource_limits := by
  refine ⟨?_, ?_, rfl, ?_⟩ <;> rfl

/-- C4 (amended): the state and range checks precede any mutation and
`ResourceLimit.current_value` is updated only when the libvirt primitive
succeeds, but the new value is written into the in-memory configuration
(`config.vcpus` / `config.memory_mb`) before the primitive is invoked, so on
a driver failure the configuration keeps the new value while the limit table
is unchanged.  With the VM Running or Paused and the driver succeeding,
`scale_cpu(n)` succeeds exactly when every CPU limit satisfies
`min ≤ n ≤ max`. -/
theorem scaleCPU_scaleMemory_amended (vm : VirtualMachine) (n mb : Nat)
    (driverOk : Bool) :
    (¬(vm.status = VMStatus.Running ∨ vm.status = VMStatus.Paused) →
       scaleCPU vm n driverOk = (false, vm) ∧
       scaleMemory vm mb driverOk = (false, vm)) ∧
    ((vm.status = VMStatus.Running ∨ vm.status = VMStatus.Paused) →
      ((∃ l ∈ vm.resource_limits, l.type = ResourceType.CPU ∧
          (n < l.min_value ∨ l.max_value < n)) →
         scaleCPU vm n driverOk = (false, vm)) ∧
      ((∀ l ∈ vm.resource_limits, l.type = ResourceType.CPU →
          l.min_value ≤ n ∧ n ≤ l.max_value) →
         (scaleCPU vm n driverOk).2.config.vcpus = n ∧
         (driverOk = false →
            (scaleCPU vm n driverOk).1 = false ∧
            (scaleCPU vm n driverOk).2.resource_limits = vm.resource_limits) ∧
         (driverOk = true →
            (scaleCPU vm n driverOk).1 = true ∧
            (scaleCPU vm n driverOk).2.resource_limits =
              setFirstCurrent vm.resource_limits ResourceType.CPU n)) ∧
      ((∀ l ∈ vm.resource_limits, l.type = ResourceType.Memory →
          l.min_value ≤ u64Mod (mb * 1024 * 1024) ∧
          u64Mod (mb * 1024 * 1024) ≤ l.max_value) →
         driverOk = false →
           (scaleMemory vm mb driverOk).1 = false ∧
           (scaleMemory vm mb driverOk).2.config.memory_mb = mb ∧
           (scaleMemory vm mb driverOk).2.resource_limits = vm.resource_limits)) := by
  constructor
  · intro hst
    constructor <;> simp [scaleCPU, scaleMemory, hst]
  · intro hst
    refine ⟨?_, ?_, ?_⟩
    · intro hex
      simp [scaleCPU, hst, hex]
    · intro hall
      have hex : ¬ ∃ l ∈ vm.resource_limits, l.type = ResourceType.CPU ∧
          (n < l.min_value ∨ l.max_value < n) := by
        rintro ⟨l, hl, hty, hout⟩
        have := hall l hl hty
        omega
      refine ⟨?_, ?_, ?_⟩
      · simp [scaleCPU, hst, hex]
        cases driverOk <;> simp
      · intro hdrv
        constructor <;> simp [scaleCPU, hst, hex, hdrv]
      · intro hdrv
        constructor <;> simp [scaleCPU, hst, hex, hdrv]
    · intro hall hdrv
      have hex : ¬ ∃ l ∈ vm.resource_limits, l.type = ResourceType.Memory ∧
          (u64Mod (mb * 1024 * 1024) < l.min_value ∨
           l.max_value < u64Mod (mb * 1024 * 1024)) := by
        rintro ⟨l, hl, hty, hout⟩
        have := hall l hl hty
        omega
      refine ⟨?_, ?_, ?_⟩ <;> simp [scaleMemory, hst, hex, hdrv]

/-- C4 witness: the amended behaviour at `vmDemo`, scaling CPU to 4 and
memory to 2048 MiB with a succeeding driver. -/
theorem scaleCPU_scaleMemory_amended_witness :
    (¬(vmDemo.status = VMStatus.Running ∨ vmDemo.status = VMStatus.Paused) →
       scaleCPU vmDemo 4 true = (false, vmDemo) ∧
       scaleMemory vmDemo 2048 true = (false, vmDemo)) ∧
    ((vmDemo.status = VMStatus.Running ∨ vmDemo.status = VMStatus.Paused) →
      ((∃ l ∈ vmDemo.resource_limits, l.type = ResourceType.CPU ∧
          (4 < l.min_value ∨ l.max_value < 4)) →
         scaleCPU vmDemo 4 true = (false, vmDemo)) ∧
      ((∀ l ∈ vmDemo.resource_limits, l.type = ResourceType.CPU →
          l.min_value ≤ 4 ∧ 4 ≤ l.max_value) →
         (scaleCPU vmDemo 4 true).2.config.vcpus = 4 ∧
         (true = false →
            (scaleCPU vmDemo 4 true).1 = false ∧
            (scaleCPU vmDemo 4 true).2.resource_limits = vmDemo.resource_limits) ∧
         (true = true →
            (scaleCPU vmDemo 4 true).1 = true ∧
            (scaleCPU vmDemo 4 true).2.resource_limits =
              setFirstCurrent vmDemo.resource_limits ResourceType.CPU 4)) ∧
      ((∀ l ∈ vmDemo.resource_limits, l.type = ResourceType.Memory →
          l.min_value ≤ u64Mod (2048 * 1024 * 1024) ∧
          u64Mod (2048 * 1024 * 1024) ≤ l.max_value) →
         true = false →
           (scaleMemory vmDemo 2048 true).1 = false ∧
           (scaleMemory vmDemo 2048 true).2.config.memory_mb = 2048 ∧
           (scaleMemory vmDemo 2048 true).2.resource_limits =
             vmDemo.resource_limits)) :=
  scaleCPU_scaleMemory_amended vmDemo 4 2048 true

/-! ## RealTimeMonitor (src/doc/deepseek.cpp, lines 2420-2474 and 2530-2554)

`update_vm_metrics` builds a local `VMMetrics metrics;` for each listed VM on
every tick — it never reads the previously stored `vm_metrics[vm_name]` — then
calls `update_moving_averages(metrics)` and overwrites the map entry with the
local object.  Doubles are modelled as `ℚ`; the `memory_history` average uses
the C++ `uint64_t` instantiation of `calculate_moving_average`, i.e. integer
division. -/

structure ResourceUsage where
  cpu_percent : ℚ
  memory_bytes : Nat
  memory_max_bytes : Nat
  io_read_bps : Nat
  io_write_bps : Nat
  network_rx_bps : Nat
  network_tx_bps : Nat
  timestamp : Int
deriving Repr, DecidableEq

structure VMMetrics where
  vm_name : String
  usage : ResourceUsage
  cpu_history : List ℚ
  memory_history : List Nat
  cpu_avg_5min : ℚ
  cpu_avg_15min : ℚ
  memory_avg_5min : ℚ
deriving Repr, DecidableEq

/-- A value-initialised `ResourceUsage` (all counters zero). -/
def emptyUsage : ResourceUsage := ⟨0, 0, 0, 0, 0, 0, 0, 0⟩

/-- A value-initialised `VMMetrics`, as the local `VMMetrics metrics;` in
`update_vm_metrics`. -/
def emptyVMMetrics : VMMetrics := ⟨"", emptyUsage, [], [], 0, 0, 0⟩

/-- `calculate_moving_average` instantiated at `double`: mean of the last
`min(size, window)` entries, `0` on empty input. -/
def calculate_moving_average (data : List ℚ) (window : Nat) : ℚ :=
  if data = [] then 0
  else
    let elements := min data.length window
    (data.drop (data.length - elements)).sum / (elements : ℚ)

/-- `calculate_moving_average` instantiated at `uint64_t`: the same fold with
truncating integer division. -/
def calculate_moving_average_u64 (data : List Nat) (window : Nat) : Nat :=
  if data = [] then 0
  else
    let elements := min data.length window
    (data.drop (data.length - elements)).sum / elements

/-- `RealTimeMonitor::update_moving_averages`: push the current sample, evict
the head beyond 300 entries, recompute the 60- and 180-sample means. -/
def update_moving_averages (m : VMMetrics) : VMMetrics :=
  let ch₀ := m.cpu_history ++ [m.usage.cpu_percent]
  let ch := if 300 < ch₀.length then ch₀.drop 1 else ch₀
  let mh₀ := m.memory_history ++ [m.usage.memory_bytes]
  let mh := if 300 < mh₀.length then mh₀.drop 1 else mh₀
  { m with cpu_history := ch, memory_history := mh,
           cpu_avg_5min := calculate_moving_average ch 60,
           cpu_avg_15min := calculate_moving_average ch 180,
           memory_avg_5min := (calculate_moving_average_u64 mh 60 : ℚ) }

/-- One VM's share of one `update_vm_metrics` tick: the sampled counters `u`
are written into a FRESH local `VMMetrics` (the stored metrics `_stored` are
not consulted), the averages are updated on that fresh object, and the result
replaces the stored entry. -/
def update_vm_metrics_tick (_stored : Option VMMetrics) (name : String)
    (u : ResourceUsage) : VMMetrics :=
  update_moving_averages { emptyVMMetrics with vm_name := name, usage := u }

/-- The stored `vm_metrics[name]` after a sequence of sampling ticks. -/
def monitor_run (name : String) (samples : List ResourceUsage) : Option VMMetrics :=
  samples.foldl (fun st u => some (update_vm_metrics_tick st name u)) none

/-- A sample with the given CPU percentage and zero everywhere else. -/
def usageOfCpu (c : ℚ) : ResourceUsage := { emptyUsage with cpu_percent := c }

/-! ### Claim C5 -/

/-- C5: the per-VM metric history does NOT accumulate across sampling ticks:
every tick rebuilds the stored `VMMetrics` from a fresh empty history, so
after any tick `cpu_history` is exactly the one current sample and
`cpu_avg_5min` equals that sample; concretely, after samples 0 then 100 the
stored history is `[100]` (not `[0, 100]`) and the 5-minute average is `100`
(not the accumulated mean `50`). -/
theorem monitor_history_resets_each_tick :
    (∀ (st : Option VMMetrics) (name : String) (u : ResourceUsage),
       (update_vm_metrics_tick st name u).cpu_history = [u.cpu_percent] ∧
       (update_vm_metrics_tick st name u).cpu_avg_5min = u.cpu_percent ∧
       (update_vm_metrics_tick st name u).cpu_avg_15min = u.cpu_percent) ∧
    (monitor_run "vm-a" [usageOfCpu 0, usageOfCpu 100]).map VMMetrics.cpu_history =
      some [100] ∧
    (monitor_run "vm-a" [usageOfCpu 0, usageOfCpu 100]).map VMMetrics.cpu_avg_5min =
      some 100 := by
  refine ⟨?_, ?_, ?_⟩
  · intro st name u
    refine ⟨?_, ?_, ?_⟩ <;>
      simp [update_vm_metrics_tick, update_moving_averages, emptyVMMetrics,
            calculate_moving_average]
  · simp [monitor_run, update_vm_metrics_tick, update_moving_averages,
          emptyVMMetrics, usageOfCpu, emptyUsage, calculate_moving_average]
  · simp [monitor_run, update_vm_metrics_tick, update_moving_averages,
          emptyVMMetrics, usageOfCpu, emptyUsage, calculate_moving_average]

/-! ## AutoScalingEngine analyzers (src/doc/deepseek.cpp, lines 2770-2890;
the first variant at lines 611-700 is identical in logic)

`analyze_metrics` initialises the decision to `Maintain`, then runs the CPU,
memory, I/O, network and usage-pattern analyzers in order.  The per-VM limit
table lookup `resource_limits[vm_name + "_" + type]` is modelled as the map
`limits : ResourceType → Option ResourceLimit`; the prediction input
(`vm_usage_patterns[vm_name]`) is the list `pattern`.  The textual `reason`
field of `ScalingDecision` is omitted (it is a formatted log string).
C++ `static_cast<uint64_t>` of a non-negative double truncates, which is
`natTrunc` below. -/

structure ScalingDecision where
  vm_name : String
  action : ScalingAction
  resource : ResourceType
  amount : Nat
  timestamp : Int
  confidence : ℚ
deriving Repr, DecidableEq

structure Thresholds where
  cpu_up : ℚ
  cpu_down : ℚ
  mem_up : ℚ
  mem_down : ℚ
  io_up : ℚ
  io_down : ℚ
  net_up : ℚ
  net_down : ℚ
deriving Repr, DecidableEq

/-- The constructor defaults: cpu 80/20, memory 85/30, io 75/15, net 70/10. -/
def defaultThresholds : Thresholds := ⟨80, 20, 85, 30, 75, 15, 70, 10⟩

/-- Truncation of a non-negative rational to a natural number, the effect of
C++ `static_cast<uint64_t>(double)` on the values reached here. -/
def natTrunc (q : ℚ) : Nat := q.floor.toNat

/-- Wrap-around subtraction on `uint64_t` operands. -/
def u64Sub (a b : Nat) : Nat := u64Mod (u64Mod a + 2 ^ 64 - u64Mod b)

def calculate_confidence (current average : ℚ) : ℚ :=
  let diff := |current - average|
  if diff < 5 then 9 / 10
  else if diff < 10 then 7 / 10
  else if diff < 15 then 1 / 2
  else 3 / 10

def calculate_cpu_increase (limit : ResourceLimit) : Nat :=
  let current := limit.current_value
  let increase := max 1 (natTrunc ((current : ℚ) * (1 / 4)))
  min (u64Mod (current + increase)) limit.max_value

def calculate_cpu_decrease (limit : ResourceLimit) : Nat :=
  let current := limit.current_value
  let decrease := max 1 (natTrunc ((current : ℚ) * (1 / 4)))
  max (u64Sub current decrease) limit.min_value

def calculate_memory_increase (limit : ResourceLimit) : Nat :=
  let current := limit.current_value
  let increase := max 1073741824 (natTrunc ((current : ℚ) * (1 / 4)))
  min (u64Mod (current + increase)) limit.max_value

def calculate_memory_decrease (limit : ResourceLimit) : Nat :=
  let current := limit.current_value
  let decrease := max 1073741824 (natTrunc ((current : ℚ) * (1 / 4)))
  max (u64Sub current decrease) limit.min_value

def calculate_predicted_increase (limits : ResourceType → Option ResourceLimit)
    (rt : ResourceType) (predicted : ℚ) : Nat :=
  match limits rt with
  | none => 0
  | some limit =>
      let current := limit.current_value
      let increase := max 1 (natTrunc ((current : ℚ) * (predicted / 100) * (3 / 10)))
      min (u64Mod (current + increase)) limit.max_value

def analyze_cpu_usage (th : Thresholds) (limits : ResourceType → Option ResourceLimit)
    (m : VMMetrics) (d : ScalingDecision) : ScalingDecision :=
  match limits ResourceType.CPU with
  | none => d
  | some limit =>
      let current_cpu := m.usage.cpu_percent
      let avg5 := m.cpu_avg_5min
      if th.cpu_up < current_cpu ∧ th.cpu_up - 10 < avg5 then
        { d with action := ScalingAction.ScaleUp, resource := ResourceType.CPU,
                 amount := calculate_cpu_increase limit,
                 confidence := calculate_confidence current_cpu avg5 }
      else if current_cpu < th.cpu_down ∧ avg5 < th.cpu_down + 5 then
        { d with action := ScalingAction.ScaleDown, resource := ResourceType.CPU,
                 amount := calculate_cpu_decrease limit,
                 confidence := calculate_confidence current_cpu avg5 }
      else d

def analyze_memory_usage (th : Thresholds) (limits : ResourceType → Option ResourceLimit)
    (m : VMMetrics) (d : ScalingDecision) : ScalingDecision :=
  match limits ResourceType.Memory with
  | none => d
  | some limit =>
      let mem_pct := 100 * (m.usage.memory_bytes : ℚ) / (m.usage.memory_max_bytes : ℚ)
      let avg5 := 100 * m.memory_avg_5min / (m.usage.memory_max_bytes : ℚ)
      if (th.mem_up < mem_pct ∧
           (d.action = ScalingAction.Maintain ∨ th.cpu_up + 10 < mem_pct)) ∧
         th.mem_up - 10 < avg5 then
        { d with action := ScalingAction.ScaleUp, resource := ResourceType.Memory,
                 amount := calculate_memory_increase limit,
                 confidence := calculate_confidence mem_pct avg5 }
      else if mem_pct < th.mem_down ∧ avg5 < th.mem_down + 5 ∧
              d.action = ScalingAction.Maintain then
        { d with action := ScalingAction.ScaleDown, resource := ResourceType.Memory,
                 amount := calculate_memory_decrease limit,
                 confidence := calculate_confidence mem_pct avg5 }
      else d

/-- The body of `analyze_io_usage` is empty in the source. -/
def analyze_io_usage (_m : VMMetrics) (d : ScalingDecision) : ScalingDecision := d

/-- The body of `analyze_network_usage` is empty in the source. -/
def analyze_network_usage (_m : VMMetrics) (d : ScalingDecision) : ScalingDecision := d

/-- `predict_usage`: the mean of the recorded usage pattern, `0` if empty. -/
def predict_usage (pattern : List ℚ) : ℚ :=
  if pattern = [] then 0 else pattern.sum / (pattern.length : ℚ)

def analyze_usage_patterns (th : Thresholds)
    (limits : ResourceType → Option ResourceLimit) (pattern : List ℚ)
    (d : ScalingDecision) : ScalingDecision :=
  let predicted := predict_usage pattern
  if th.cpu_up < predicted ∧ d.action = ScalingAction.Maintain then
    { d with action := ScalingAction.ScaleUp, resource := ResourceType.CPU,
             amount := calculate_predicted_increase limits ResourceType.CPU predicted,
             confidence := 3 / 5 }
  else d

/-- The analysis pipeline of `analyze_metrics` before rate limiting: the
decision starts as `Maintain` and flows through the CPU, memory, I/O,
network and pattern analyzers in order. -/
def analyze_decision (th : Thresholds) (limits : ResourceType → Option ResourceLimit)
    (pattern : List ℚ) (m : VMMetrics) (d₀ : ScalingDecision) : ScalingDecision :=
  analyze_usage_patterns th limits pattern
    (analyze_network_usage m
      (analyze_io_usage m
        (analyze_memory_usage th limits m
          (analyze_cpu_usage th limits m
            { d₀ with action := ScalingAction.Maintain }))))

/-- A limit table with CPU `[1,8]` current 2 and Memory `[1 GiB, 8 GiB]`
current 2 GiB. -/
def limitsDemo : ResourceType → Option ResourceLimit := fun rt =>
  match rt with
  | ResourceType.CPU => some ⟨ResourceType.CPU, 1, 8, 2, "cores"⟩
  | ResourceType.Memory => some ⟨ResourceType.Memory, 1073741824, 8589934592, 2147483648, "bytes"⟩
  | _ => none

/-- A metric event where the CPU rule fires (cpu 95, 5-min average 95) and
`mem_pct = 100*96/100 = 96` exceeds `mem_up_threshold + 10 = 95`, but the
5-minute memory average percentage is only 10. -/
def metricsDemo : VMMetrics :=
  { vm_name := "vm-a",
    usage := { emptyUsage with cpu_percent := 95, memory_bytes := 96,
                               memory_max_bytes := 100 },
    cpu_history := [95], memory_history := [10],
    cpu_avg_5min := 95, cpu_avg_15min := 95, memory_avg_5min := 10 }

/-- The same event with a high 5-minute memory average (90 %). -/
def metricsDemoHigh : VMMetrics := { metricsDemo with memory_avg_5min := 90 }

/-- The decision record as initialised by `analyze_metrics`. -/
def decisionInit : ScalingDecision :=
  ⟨"vm-a", ScalingAction.Maintain, ResourceType.CPU, 0, 0, 0⟩

/-! ### Claim C7 -/

/-- C7 counterexample: on `metricsDemo` (mem_pct = 96 > mem_up_threshold + 10
= 95, CPU rule fired) the emitted decision is a CPU `ScaleUp`, NOT a
`ScaleUp(Memory)`: the memory rule additionally requires the 5-minute memory
average percentage to exceed `mem_up_threshold - 10 = 75`, and here it is 10,
so memory does not take priority over CPU. -/
theorem memory_priority_counterexample :
    (analyze_decision defaultThresholds limitsDemo [] metricsDemo decisionInit).action =
      ScalingAction.ScaleUp ∧
    (analyze_decision defaultThresholds limitsDemo [] metricsDemo decisionInit).resource =
      ResourceType.CPU ∧
    defaultThresholds.mem_up + 10 <
      100 * (metricsDemo.usage.memory_bytes : ℚ) /
        (metricsDemo.usage.memory_max_bytes : ℚ) := by
  refine ⟨?_, ?_, ?_⟩ <;>
    norm_num [analyze_decision, analyze_usage_patterns, predict_usage,
      analyze_network_usage, analyze_io_usage, analyze_memory_usage,
      analyze_cpu_usage, limitsDemo, metricsDemo, decisionInit,
      defaultThresholds, emptyUsage]

/-- C7 (amended): the memory rule overrides a fired CPU rule exactly under
the code's guards: `mem_pct > mem_up_threshold`, `mem_pct >
cpu_up_threshold + 10` (the priority comparison uses the CPU threshold, not
the memory one), AND the 5-minute memory average percentage exceeds
`mem_up_threshold - 10`; `mem_pct > mem_up_threshold + 10` alone does not
suffice. -/
theorem memory_priority_amended (th : Thresholds)
    (limits : ResourceType → Option ResourceLimit) (m : VMMetrics)
    (d : ScalingDecision) (L : ResourceLimit)
    (hmem : limits ResourceType.Memory = some L)
    (h₁ : th.mem_up < 100 * (m.usage.memory_bytes : ℚ) / (m.usage.memory_max_bytes : ℚ))
    (h₂ : th.cpu_up + 10 < 100 * (m.usage.memory_bytes : ℚ) / (m.usage.memory_max_bytes : ℚ))
    (h₃ : th.mem_up - 10 < 100 * m.memory_avg_5min / (m.usage.memory_max_bytes : ℚ)) :
    (analyze_memory_usage th limits m d).action = ScalingAction.ScaleUp ∧
    (analyze_memory_usage th limits m d).resource = ResourceType.Memory ∧
    (analyze_memory_usage th limits m d).amount = calculate_memory_increase L := by
  simp only [analyze_memory_usage, hmem]
  rw [if_pos ⟨⟨h₁, Or.inr h₂⟩, h₃⟩]
  exact ⟨rfl, rfl, rfl⟩

/-- C7 witness: with the 5-minute memory average percentage high (90), the
memory rule does override the fired CPU rule on the demo limits. -/
theorem memory_priority_amended_witness :
    (analyze_memory_usage defaultThresholds limitsDemo metricsDemoHigh
        (analyze_cpu_usage defaultThresholds limitsDemo metricsDemoHigh
          decisionInit)).action = ScalingAction.ScaleUp ∧
    (analyze_memory_usage defaultThresholds limitsDemo metricsDemoHigh
        (analyze_cpu_usage defaultThresholds limitsDemo metricsDemoHigh
          decisionInit)).resource = ResourceType.Memory ∧
    (analyze_memory_usage defaultThresholds limitsDemo metricsDemoHigh
        (analyze_cpu_usage defaultThresholds limitsDemo metricsDemoHigh
          decisionInit)).amount =
      calculate_memory_increase ⟨ResourceType.Memory, 1073741824, 8589934592,
        2147483648, "bytes"⟩ :=
  memory_priority_amended defaultThresholds limitsDemo metricsDemoHigh
    (analyze_cpu_usage defaultThresholds limitsDemo metricsDemoHigh decisionInit)
    ⟨ResourceType.Memory, 1073741824, 8589934592, 2147483648, "bytes"⟩
    (by rfl)
    (by norm_num [metricsDemoHigh, metricsDemo, defaultThresholds, emptyUsage])
    (by norm_num [metricsDemoHigh, metricsDemo, defaultThresholds, emptyUsage])
    (by norm_num [metricsDemoHigh, metricsDemo, defaultThresholds, emptyUsage])

/-! ## MAC address generators

Three generators exist in the repository.  Each is modelled as a function of
the random byte draws (`std::uniform_int_distribution(0, 255)` outputs,
reduced here with `% 256`) to the list of six octet values; the C++ code then
renders the octets as lower-case two-digit hex pairs joined by colons. -/

/-- `VirtualMachineNic::generate_mac` of src/unnamed/part_001 — the variant
used by the default NIC constructor: all SIX octets are drawn at random, and
only the FIRST octet is forced with `(byte & 0xFE) | 0x02`. -/
def generate_mac (b₀ b₁ b₂ b₃ b₄ b₅ : Nat) : List Nat :=
  [(b₀ % 256 &&& 254) ||| 2, b₁ % 256, b₂ % 256, b₃ % 256, b₄ % 256, b₅ % 256]

/-- `VirtualMachineNic::generate_mac` of src/unnamed/part_000: the fixed
`52:54:00` KVM OUI followed by three random octets, the first of which is
forced with `&= 0xFE; |= 0x02`. -/
def generate_mac_kvm (b₀ b₁ b₂ : Nat) : List Nat :=
  [82, 84, 0, (b₀ % 256 &&& 254) ||| 2, b₁ % 256, b₂ % 256]

/-- `VirtualMachine::generateMACAddress` of src/doc/deepseek.cpp, lines
1844-1852: the fixed `52:54:00` followed by three random octets with NO bit
forcing at all. -/
def generateMACAddress (b₀ b₁ b₂ : Nat) : List Nat :=
  [82, 84, 0, b₀ % 256, b₁ % 256, b₂ % 256]

set_option maxRecDepth 4096 in
/-- The forced octet always has bit 0 clear and bit 1 set, i.e. its residue
mod 4 is 2 (locally administered, unicast). -/
theorem forced_octet_mod_four (b : Nat) : ((b % 256 &&& 254) ||| 2) % 4 = 2 := by
  have hb : b % 256 < 256 := Nat.mod_lt _ (by norm_num)
  have hall : ∀ y < 256, ((y &&& 254) ||| 2) % 4 = 2 := by decide
  exact hall _ hb

/-! ### Claim C8 -/

/-- C8 counterexample: the part_001 generator (used by the default NIC
constructor) given the all-zero byte draw yields `02:00:00:00:00:00`, whose
first three octets are NOT `52:54:00`; and the deepseek generator given byte
draw `1, 0, 0` yields fourth octet `0x01`, which has bit 0 = 1 and bit 1 = 0
— not forced to locally-administered unicast. -/
theorem mac_generation_counterexample :
    generate_mac 0 0 0 0 0 0 = [2, 0, 0, 0, 0, 0] ∧
    [(2 : Nat), 0, 0] ≠ [82, 84, 0] ∧
    generateMACAddress 1 0 0 = [82, 84, 0, 1, 0, 0] ∧
    ¬((1 : Nat) % 4 = 2) := by
  decide

/-- C8 (amended): only the part_000 generator satisfies the claimed format in
full — a fixed `52:54:00` with the fourth octet forced to bit 0 = 0 and
bit 1 = 1.  The part_001 generator instead forces the FIRST octet that way
and leaves all three leading octets random, and the deepseek generator keeps
the `52:54:00` form but applies no bit forcing to its random octets. -/
theorem mac_generation_amended (b₀ b₁ b₂ b₃ b₄ b₅ : Nat) :
    (∃ x₃ x₄ x₅, generate_mac_kvm b₀ b₁ b₂ = [82, 84, 0, x₃, x₄, x₅] ∧
       x₃ % 4 = 2) ∧
    (∃ y₀ t, generate_mac b₀ b₁ b₂ b₃ b₄ b₅ = y₀ :: t ∧ y₀ % 4 = 2) ∧
    (∃ z₃ z₄ z₅, generateMACAddress b₀ b₁ b₂ = [82, 84, 0, z₃, z₄, z₅]) := by
  exact ⟨⟨_, _, _, rfl, forced_octet_mod_four b₀⟩,
         ⟨_, _, rfl, forced_octet_mod_four b₀⟩,
         ⟨_, _, _, rfl⟩⟩

/-! ## VmConfig XML round-trip (src/unnamed/part_004 and
include/Virtualization/vmm/VirtualMachineConfig.hpp)

`toXML` serialises name, memory (KiB), vcpu, os type/arch and the first disk.
`fromXML` is the stub `VmConfig cfg; return cfg;` (its body is only a TODO
comment): the class members of class type (strings, vectors, map) are
default-constructed empty, while the primitive members (`unsigned long
memory`, `currentMemory`, `unsigned int vcpus`, `maxVcpus`, `int port`,
`bool autoport`) are left indeterminate — they are passed in here as explicit
parameters. -/

structure DiskConfig where
  type : String
  device : String
  source : String
  target : String
  driver : String
  size : Nat
  readOnly : Bool
deriving Repr, DecidableEq

structure NetworkConfig where
  type : String
  source : String
  model : String
  macAddress : String
deriving Repr, DecidableEq

structure GraphicsConfig where
  type : String
  listenAddress : String
  port : Int
  autoport : Bool
deriving Repr, DecidableEq

structure VmConfig where
  name : String
  uuid : String
  title : String
  description : String
  osType : String
  arch : String
  memory : Nat
  currentMemory : Nat
  vcpus : Nat
  maxVcpus : Nat
  disks : List DiskConfig
  networks : List NetworkConfig
  graphics : GraphicsConfig
  metadata : List (String × String)
  emulator : String
deriving Repr, DecidableEq

/-- `VmConfig::validate`: non-empty name, memory and vcpus non-zero, at least
one disk. -/
def VmConfig.validate (c : VmConfig) : Bool :=
  if c.name.isEmpty then false
  else if c.memory == 0 || c.vcpus == 0 then false
  else if c.disks.isEmpty then false
  else true

/-- `VmConfig::toXML`: the serialised domain document (apostrophes written as
`\x27`). -/
def VmConfig.toXML (c : VmConfig) : String :=
  "<domain type=\x27kvm\x27><name>" ++ c.name ++ "</name><memory unit=\x27KiB\x27>" ++
    toString c.memory ++ "</memory><vcpu>" ++ toString c.vcpus ++
    "</vcpu><os><type arch=\x27" ++ c.arch ++ "\x27>" ++ c.osType ++
    "</type></os><devices>" ++
    (match c.disks with
     | [] => ""
     | d :: _ =>
        "<disk type=\x27" ++ d.type ++ "\x27 device=\x27" ++ d.device ++
        "\x27><driver type=\x27" ++ d.driver ++ "\x27/><source file=\x27" ++
        d.source ++ "\x27/><target dev=\x27" ++ d.target ++
        "\x27/></disk>") ++
    "</devices></domain>"

/-- `VmConfig::fromXML`: the unimplemented stub returns a default-constructed
`VmConfig`, ignoring its input entirely; the indeterminate primitive members
are the parameters `memory₀ .. autoport₀`. -/
def VmConfig.fromXML (memory₀ currentMemory₀ vcpus₀ maxVcpus₀ : Nat)
    (port₀ : Int) (autoport₀ : Bool) (_xml : String) : VmConfig :=
  { name := "", uuid := "", title := "", description := "", osType := "",
    arch := "", memory := memory₀, currentMemory := currentMemory₀,
    vcpus := vcpus₀, maxVcpus := maxVcpus₀, disks := [], networks := [],
    graphics := ⟨"", "", port₀, autoport₀⟩, metadata := [], emulator := "" }

/-- The minimal valid configuration of the spec's deployment scenario. -/
def cfgDemo : VmConfig :=
  { name := "vm-a", uuid := "", title := "", description := "",
    osType := "hvm", arch := "x86_64", memory := 2097152, currentMemory := 2097152,
    vcpus := 2, maxVcpus := 2,
    disks := [⟨"file", "disk", "/img/a.qcow2", "vda", "qcow2", 0, false⟩],
    networks := [], graphics := ⟨"spice", "127.0.0.1", 5900, true⟩,
    metadata := [], emulator := "" }

/-! ### Claim C9 -/

/-- C9: `fromXML` is an unimplemented stub that ignores its input, so the
round-trip `fromXML(toXML(cfg))` does NOT reproduce a validated `cfg`: for
the valid `cfgDemo` (and any indeterminate primitive member values) the
round-tripped configuration has an empty name and no disks, so it is not
equivalent to `cfgDemo` on name, vcpus, memory or the first disk. -/
theorem fromXML_roundtrip_loses_config :
    cfgDemo.validate = true ∧
    ∀ (m cm v mv : Nat) (p : Int) (ap : Bool),
      (VmConfig.fromXML m cm v mv p ap cfgDemo.toXML).name ≠ cfgDemo.name ∧
      (VmConfig.fromXML m cm v mv p ap cfgDemo.toXML).disks = [] ∧
      cfgDemo.disks ≠ [] := by
  refine ⟨rfl, ?_⟩
  intro m cm v mv p ap
  refine ⟨?_, rfl, ?_⟩
  · intro h
    simp [VmConfig.fromXML, cfgDemo] at h
  · intro h
    simp [cfgDemo] at h

end PenHive